import Mathlib

/-!
Verification of the register-level access layer for the CDCx913 clock
generator (a two-PLL clock-generator IC reachable over a two-wire bus).

The development shallowly embeds the crate's bitfield codecs
(`src/registers.rs`), the command-byte framer (`src/i2c.rs`) and the
device facade's read-modify-write orchestration (`src/lib.rs`) into Lean.
Register bytes are `Nat` values reduced modulo 256 at the bus boundary,
mirroring the `u8` register contents; 32-bit packed PLL words are `Nat`
values below `2 ^ 32`.

Each bitfield declared by the `bitfield::bitfield!` blocks becomes a pair
of functions built from `getBits` / `setBitsIn`, with the exact
`msb, lsb` bounds transcribed from the source.  The generated Rust getter
extracts `(raw >> lsb) & mask`; the generated setter clears the field's
bits and ors in the new value masked to the field width.  `getBits` and
`setBitsIn` implement exactly that.
-/

/-- Extract the inclusive bit range `hi..lo` of `b`
(the bitfield crate's generated getter). -/
def getBits (b hi lo : Nat) : Nat := (b >>> lo) % 2 ^ (hi + 1 - lo)

/-- The mask selecting the inclusive bit range `hi..lo`. -/
def fieldMask (hi lo : Nat) : Nat := (2 ^ (hi + 1 - lo) - 1) <<< lo

/-- Store `v` (masked to the field width) into the inclusive bit range
`hi..lo` of a `W`-bit word `b`, leaving the other bits of the word alone
(the bitfield crate's generated setter: clear-mask-then-or). -/
def setBitsIn (W b hi lo v : Nat) : Nat :=
  (b &&& ((2 ^ W - 1) ^^^ fieldMask hi lo)) ||| ((v % 2 ^ (hi + 1 - lo)) <<< lo)

/-- Field store in an 8-bit register byte. -/
def setBits (b hi lo v : Nat) : Nat := setBitsIn 8 b hi lo v

/-- Field store in a 32-bit packed word. -/
def setBits32 (b hi lo v : Nat) : Nat := setBitsIn 32 b hi lo v

/-- Single-bit getter (the bitfield crate returns `bool` for 1-bit fields). -/
def bitGet (b i : Nat) : Bool := Nat.testBit b i

/-- Single-bit setter taking a `Bool`, as the generated Rust setter does. -/
def bitSet (b i : Nat) (x : Bool) : Nat := setBitsIn 8 b i i (cond x 1 0)

/-- Bit-level characterization of `setBitsIn`: inside the field the bits
come from the stored value, outside it (but below the word width) they
come from the old word, and at or above the word width they are clear. -/
theorem testBit_setBitsIn (W b hi lo v j : Nat) (hhi : hi < W) (hlo : lo ≤ hi) :
    Nat.testBit (setBitsIn W b hi lo v) j =
      if lo ≤ j ∧ j ≤ hi then Nat.testBit v (j - lo)
      else (decide (j < W) && Nat.testBit b j) := by
  unfold setBitsIn fieldMask
  simp only [Nat.testBit_or, Nat.testBit_and, Nat.testBit_xor, Nat.testBit_shiftLeft,
    Nat.testBit_two_pow_sub_one, Nat.testBit_mod_two_pow]
  by_cases h1 : lo ≤ j
  · by_cases h2 : j ≤ hi
    · have hjW : j < W := by omega
      have hw : j - lo < hi + 1 - lo := by omega
      simp [h1, h2, hjW, hw]
    · have hw : ¬j - lo < hi + 1 - lo := by omega
      by_cases h3 : j < W
      · simp [h1, h2, h3, hw]
      · simp [h1, h2, h3, hw]
  · have h3 : j < W := by omega
    simp [h1, h3]

/-- Reading a field back right after storing it yields the stored value
reduced to the field width. -/
theorem getBits_setBitsIn_self (W b hi lo v : Nat) (hhi : hi < W) (hlo : lo ≤ hi) :
    getBits (setBitsIn W b hi lo v) hi lo = v % 2 ^ (hi + 1 - lo) := by
  apply Nat.eq_of_testBit_eq
  intro i
  simp only [getBits, Nat.testBit_mod_two_pow, Nat.testBit_shiftRight]
  by_cases h1 : i < hi + 1 - lo
  · rw [testBit_setBitsIn W b hi lo v (lo + i) hhi hlo]
    have h2 : lo ≤ lo + i ∧ lo + i ≤ hi := by omega
    have h3 : lo + i - lo = i := by omega
    simp [h1, h2, h3]
  · simp [h1]

/-- Storing one field does not disturb any disjoint field of the word. -/
theorem getBits_setBitsIn_outside (W b hi lo v hi' lo' : Nat) (hhi : hi < W)
    (hlo : lo ≤ hi) (hhi' : hi' < W) (hd : hi' < lo ∨ hi < lo') :
    getBits (setBitsIn W b hi lo v) hi' lo' = getBits b hi' lo' := by
  apply Nat.eq_of_testBit_eq
  intro i
  simp only [getBits, Nat.testBit_mod_two_pow, Nat.testBit_shiftRight]
  by_cases h1 : i < hi' + 1 - lo'
  · rw [testBit_setBitsIn W b hi lo v (lo' + i) hhi hlo]
    have hout : ¬(lo ≤ lo' + i ∧ lo' + i ≤ hi) := by omega
    have hW : lo' + i < W := by omega
    simp [h1, hout, hW]
  · simp [h1]

/-- Storing a field does not disturb any single bit outside the field. -/
theorem testBit_setBitsIn_outside (W b hi lo v j : Nat) (hhi : hi < W)
    (hlo : lo ≤ hi) (hjW : j < W) (hd : j < lo ∨ hi < j) :
    Nat.testBit (setBitsIn W b hi lo v) j = Nat.testBit b j := by
  rw [testBit_setBitsIn W b hi lo v j hhi hlo]
  have hout : ¬(lo ≤ j ∧ j ≤ hi) := by omega
  simp [hout, hjW]

/-- A field store stays within the `W`-bit word. -/
theorem setBitsIn_lt (W b hi lo v : Nat) (hhi : hi < W) (hlo : lo ≤ hi) :
    setBitsIn W b hi lo v < 2 ^ W := by
  apply Nat.lt_pow_two_of_testBit
  intro i hiW
  rw [testBit_setBitsIn W b hi lo v i hhi hlo]
  have hout : ¬(lo ≤ i ∧ i ≤ hi) := by omega
  have : ¬i < W := by omega
  simp [hout, this]

/-!
## Register codecs (`src/registers.rs`)

Each namespace matches one `bitfield!` struct; each definition matches one
generated getter or setter, with the `msb, lsb` bounds copied from the
declaration.  Semantic enums are transcribed with their discriminant
values (`variant as u8` becomes `toRaw`).
-/

/-- `generic_configuration::InputClockSelection` (discriminants 0b00, 0b01,
0b10; 0b11 is a reserved hardware code with no variant). -/
inductive InputClockSelection
  | Xtal
  | Vcxo
  | LvCmos
deriving DecidableEq, Repr

/-- `selection as u8` on `InputClockSelection`. -/
def InputClockSelection.toRaw : InputClockSelection → Nat
  | .Xtal => 0b00
  | .Vcxo => 0b01
  | .LvCmos => 0b10

namespace GenericConfigurationRegister1

/-- Field `_inclk, set_inclk: 3, 2`. -/
def inclk (b : Nat) : Nat := getBits b 3 2

def set_inclk (b v : Nat) : Nat := setBits b 3 2 v

/-- `input_clock_selection`: decode of the 2-bit INCLK code; the reserved
code maps to `Xtal`. -/
def input_clock_selection (b : Nat) : InputClockSelection :=
  match inclk b with
  | 0b00 => .Xtal
  | 0b01 => .Vcxo
  | 0b10 => .LvCmos
  | _ => .Xtal

/-- `set_input_clock_selection`: stores `selection as u8` in INCLK. -/
def set_input_clock_selection (b : Nat) (s : InputClockSelection) : Nat :=
  set_inclk b s.toRaw

end GenericConfigurationRegister1

namespace GenericConfigurationRegister2

/-- Field `pdiv1_9_8, set_pdiv1_9_8: 1, 0`. -/
def pdiv1_9_8 (b : Nat) : Nat := getBits b 1 0

def set_pdiv1_9_8 (b v : Nat) : Nat := setBits b 1 0 v

end GenericConfigurationRegister2

namespace GenericConfigurationRegister3

/-- Field `pdiv1_7_0, set_pdiv1_7_0: 7, 0`. -/
def pdiv1_7_0 (b : Nat) : Nat := getBits b 7 0

def set_pdiv1_7_0 (b v : Nat) : Nat := setBits b 7 0 v

/-- `pdiv1_full_value`: `(upper << 8) | lower`, upper from register 2's
PDIV1 high bits, lower from this register.  First argument is this
register's byte, second is register 2's byte, as in the Rust signature
`fn pdiv1_full_value(&self, reg2: &GenericConfigurationRegister2)`. -/
def pdiv1_full_value (b3 b2 : Nat) : Nat :=
  (GenericConfigurationRegister2.pdiv1_9_8 b2 <<< 8) ||| pdiv1_7_0 b3

end GenericConfigurationRegister3

namespace GenericConfigurationRegister5

/-- Field `xcsel, set_xcsel: 7, 3`. -/
def xcsel (b : Nat) : Nat := getBits b 7 3

def set_xcsel (b v : Nat) : Nat := setBits b 7 3 v

/-- `crystal_load_capacitance_pf`: raw codes 0..=19 are the capacitance in
pF; every higher code reports 20. -/
def crystal_load_capacitance_pf (b : Nat) : Nat :=
  if xcsel b < 0x14 then xcsel b else 20

/-- `set_crystal_load_capacitance_pf`: clamps the requested pF to 20
before storing it in XCSEL. -/
def set_crystal_load_capacitance_pf (b pf : Nat) : Nat :=
  set_xcsel b (if pf < 0x14 then pf else 20)

end GenericConfigurationRegister5

namespace Pll1ConfigurationRegister0

/-- Field `ssc1_7, set_ssc1_7: 7, 5`. -/
def ssc1_7 (b : Nat) : Nat := getBits b 7 5

def set_ssc1_7 (b v : Nat) : Nat := setBits b 7 5 v

/-- Field `ssc1_6, set_ssc1_6: 4, 2`. -/
def ssc1_6 (b : Nat) : Nat := getBits b 4 2

def set_ssc1_6 (b v : Nat) : Nat := setBits b 4 2 v

/-- Field `ssc1_5, set_ssc1_5: 1, 0` (the high two bits of SSC1_5). -/
def ssc1_5 (b : Nat) : Nat := getBits b 1 0

def set_ssc1_5 (b v : Nat) : Nat := setBits b 1 0 v

end Pll1ConfigurationRegister0

namespace Pll1ConfigurationRegister1

/-- Field `ssc1_5, set_ssc1_5: 7` (single bit, `bool`-typed in Rust). -/
def ssc1_5 (b : Nat) : Bool := bitGet b 7

def set_ssc1_5 (b : Nat) (x : Bool) : Nat := bitSet b 7 x

/-- Field `ssc1_4, set_ssc1_4: 6, 4`. -/
def ssc1_4 (b : Nat) : Nat := getBits b 6 4

def set_ssc1_4 (b v : Nat) : Nat := setBits b 6 4 v

/-- Field `ssc1_3, set_ssc1_3: 3, 1`. -/
def ssc1_3 (b : Nat) : Nat := getBits b 3 1

def set_ssc1_3 (b v : Nat) : Nat := setBits b 3 1 v

/-- Field `ssc1_2, set_ssc1_2: 0` (single bit, `bool`-typed in Rust). -/
def ssc1_2 (b : Nat) : Bool := bitGet b 0

def set_ssc1_2 (b : Nat) (x : Bool) : Nat := bitSet b 0 x

end Pll1ConfigurationRegister1

namespace Pll1ConfigurationRegister2

/-- Field `ssc1_2, set_ssc1_2: 7, 6`. -/
def ssc1_2 (b : Nat) : Nat := getBits b 7 6

def set_ssc1_2 (b v : Nat) : Nat := setBits b 7 6 v

/-- Field `ssc1_1, set_ssc1_1: 6, 3` — transcribed exactly as declared in
the source: a four-bit range whose top bit coincides with the low bit of
`ssc1_2: 7, 6` above. -/
def ssc1_1 (b : Nat) : Nat := getBits b 6 3

def set_ssc1_1 (b v : Nat) : Nat := setBits b 6 3 v

/-- Field `ssc1_0, set_ssc1_0: 2, 0`. -/
def ssc1_0 (b : Nat) : Nat := getBits b 2 0

def set_ssc1_0 (b v : Nat) : Nat := setBits b 2 0 v

end Pll1ConfigurationRegister2

namespace PllSettings

/-- Field `pllx_yn, set_pllx_yn: 31, 20` (12-bit N divide ratio). -/
def pllx_yn (w : Nat) : Nat := getBits w 31 20

def set_pllx_yn (w v : Nat) : Nat := setBits32 w 31 20 v

/-- Field `pllx_yr, set_pllx_yr: 19, 11` (9-bit R reference ratio). -/
def pllx_yr (w : Nat) : Nat := getBits w 19 11

def set_pllx_yr (w v : Nat) : Nat := setBits32 w 19 11 v

/-- Field `pllx_yq, set_pllx_yq: 10, 5` (6-bit Q feedback ratio). -/
def pllx_yq (w : Nat) : Nat := getBits w 10 5

def set_pllx_yq (w v : Nat) : Nat := setBits32 w 10 5 v

/-- Field `pllx_yp, set_pllx_yp: 4, 2` (3-bit P value). -/
def pllx_yp (w : Nat) : Nat := getBits w 4 2

def set_pllx_yp (w v : Nat) : Nat := setBits32 w 4 2 v

/-- Field `_vco1x_y_range, set_vcox_y_range: 1, 0` (2-bit VCO range). -/
def vco1x_y_range (w : Nat) : Nat := getBits w 1 0

def set_vcox_y_range (w v : Nat) : Nat := setBits32 w 1 0 v

end PllSettings

/-!
## Command framing (`src/i2c.rs`)
-/

/-- `i2c::OpCode`: block or single-byte access. -/
inductive OpCode
  | Block
  | Byte
deriving DecidableEq, Repr

namespace CommandCode

/-- Field `mode, set_mode: 7` of the command byte. -/
def set_mode (b : Nat) (x : Bool) : Nat := bitSet b 7 x

/-- Field `offset, set_offset: 6, 0` of the command byte. -/
def offset (b : Nat) : Nat := getBits b 6 0

def set_offset (b v : Nat) : Nat := setBits b 6 0 v

/-- `CommandCode::new`: starts from 0, stores the mode bit
(`op_code == OpCode::Byte`), then stores the offset. -/
def new (op_code : OpCode) (off : Nat) : Nat :=
  set_offset (set_mode 0 (op_code = OpCode.Byte)) off

end CommandCode

/-!
## Device facade (`src/lib.rs`)

The transport is a `Bus`: the device register file (`regs`, one byte per
offset, reduced modulo 256 at every transaction) plus per-offset fault
injection for read and write transactions, standing for the `I2c` bus
errors that every facade operation propagates with `?`.  Mutating
operations also return the list of transactions they attempted, so
ordering and abort behaviour can be stated.  Getters return a
`ReadOutcome`: a transport error, a value, or an assertion failure raised
while constructing the typed value (an `arbitrary_int` constructor called
with an oversize argument).
-/

/-- One attempted bus transaction. -/
inductive BusEv
  | read (off val : Nat)
  | readFailed (off : Nat)
  | write (off val : Nat)
  | writeFailed (off val : Nat)
deriving DecidableEq, Repr

/-- The transport handle plus the device register file it reaches. -/
structure Bus where
  regs : Nat → Nat
  failRead : Nat → Bool
  failWrite : Nat → Bool

/-- Register update performed by a successful write transaction. -/
def Bus.setReg (b : Bus) (off v : Nat) : Bus :=
  { b with regs := fun o => if o = off then v else b.regs o }

/-- `read_byte_unchecked`: one read transaction; `none` models the
transport error the Rust code propagates with `?`. -/
def read_byte_unchecked (b : Bus) (off : Nat) : Option Nat × List BusEv :=
  if b.failRead off then (none, [BusEv.readFailed off])
  else (some (b.regs off % 256), [BusEv.read off (b.regs off % 256)])

/-- `write_byte_unchecked`: one write transaction; on a transport error
(`false`) the register keeps its old contents. -/
def write_byte_unchecked (b : Bus) (off v : Nat) : Bool × Bus × List BusEv :=
  if b.failWrite off then (false, b, [BusEv.writeFailed off (v % 256)])
  else (true, b.setReg off (v % 256), [BusEv.write off (v % 256)])

/-- `modify_byte_unchecked`: one read-modify-write cycle — read the
current byte, apply `f`, write the result back. -/
def modify_byte_unchecked (b : Bus) (off : Nat) (f : Nat → Nat) :
    Bool × Bus × List BusEv :=
  match read_byte_unchecked b off with
  | (none, t) => (false, b, t)
  | (some old, t) =>
    let r := write_byte_unchecked b off (f old)
    (r.1, r.2.1, t ++ r.2.2)

/-- Outcome of a facade getter. -/
inductive ReadOutcome (α : Type)
  | ok (a : α)
  | busError
  | panicked
deriving DecidableEq, Repr

/-- `u3::new`: asserts its argument fits in three bits; `none` models the
assertion failure. -/
def u3_new (v : Nat) : Option Nat := if v < 8 then some v else none

/-- `u10::new`: asserts its argument fits in ten bits. -/
def u10_new (v : Nat) : Option Nat := if v < 1024 then some v else none

/-- `spread_spectrum_clocking_selection_raw`: gathers the SSC1 selection
bits of control input `i` from PLL1 configuration registers 0 (offset
0x10), 1 (0x11) and 2 (0x12) and wraps the result in `u3::new`.  The
final arm models the `unreachable!()` branch, which a `u3` index never
takes. -/
def spread_spectrum_clocking_selection_raw (b : Bus) (i : Nat) : ReadOutcome Nat :=
  let raw : Option Nat :=
    match i with
    | 7 => (read_byte_unchecked b 0x10).1.map Pll1ConfigurationRegister0.ssc1_7
    | 6 => (read_byte_unchecked b 0x10).1.map Pll1ConfigurationRegister0.ssc1_6
    | 5 => do
        let hi ← (read_byte_unchecked b 0x10).1.map Pll1ConfigurationRegister0.ssc1_5
        let lo ← (read_byte_unchecked b 0x11).1.map
          (fun r => cond (Pll1ConfigurationRegister1.ssc1_5 r) 1 0)
        pure ((hi <<< 1) ||| lo)
    | 4 => (read_byte_unchecked b 0x11).1.map Pll1ConfigurationRegister1.ssc1_4
    | 3 => (read_byte_unchecked b 0x11).1.map Pll1ConfigurationRegister1.ssc1_3
    | 2 => do
        let hi ← (read_byte_unchecked b 0x11).1.map
          (fun r => cond (Pll1ConfigurationRegister1.ssc1_2 r) 1 0)
        let lo ← (read_byte_unchecked b 0x12).1.map Pll1ConfigurationRegister2.ssc1_2
        pure ((hi <<< 2) ||| lo)
    | 1 => (read_byte_unchecked b 0x12).1.map Pll1ConfigurationRegister2.ssc1_1
    | 0 => (read_byte_unchecked b 0x12).1.map Pll1ConfigurationRegister2.ssc1_0
    | _ => none
  match raw with
  | none => ReadOutcome.busError
  | some x =>
    match u3_new x with
    | some y => ReadOutcome.ok y
    | none => ReadOutcome.panicked

/-- `set_spread_spectrum_clocking_selection_raw`: scatters the 3-bit value
for control input `i` over the register(s) holding it, one read-modify-
write cycle per register, aborting on the first transport error.  The
final arm models the `unreachable!()` branch. -/
def set_spread_spectrum_clocking_selection_raw (b : Bus) (i v : Nat) :
    Bool × Bus × List BusEv :=
  match i with
  | 7 => modify_byte_unchecked b 0x10 (fun r => Pll1ConfigurationRegister0.set_ssc1_7 r v)
  | 6 => modify_byte_unchecked b 0x10 (fun r => Pll1ConfigurationRegister0.set_ssc1_6 r v)
  | 5 =>
    let hi := v >>> 1
    let lo := v &&& 0b001
    let r1 := modify_byte_unchecked b 0x10
      (fun r => Pll1ConfigurationRegister0.set_ssc1_5 r hi)
    if r1.1 then
      let r2 := modify_byte_unchecked r1.2.1 0x11
        (fun r => Pll1ConfigurationRegister1.set_ssc1_5 r (lo != 0))
      (r2.1, r2.2.1, r1.2.2 ++ r2.2.2)
    else (false, r1.2.1, r1.2.2)
  | 4 => modify_byte_unchecked b 0x11 (fun r => Pll1ConfigurationRegister1.set_ssc1_4 r v)
  | 3 => modify_byte_unchecked b 0x11 (fun r => Pll1ConfigurationRegister1.set_ssc1_3 r v)
  | 2 =>
    let hi := v >>> 2
    let lo := v &&& 0b011
    let r1 := modify_byte_unchecked b 0x11
      (fun r => Pll1ConfigurationRegister1.set_ssc1_2 r (hi != 0))
    if r1.1 then
      let r2 := modify_byte_unchecked r1.2.1 0x12
        (fun r => Pll1ConfigurationRegister2.set_ssc1_2 r lo)
      (r2.1, r2.2.1, r1.2.2 ++ r2.2.2)
    else (false, r1.2.1, r1.2.2)
  | 1 => modify_byte_unchecked b 0x12 (fun r => Pll1ConfigurationRegister2.set_ssc1_1 r v)
  | 0 => modify_byte_unchecked b 0x12 (fun r => Pll1ConfigurationRegister2.set_ssc1_0 r v)
  | _ => (false, b, [])

/-- `y1_output_divider`: reads generic configuration registers 2 and 3 and
reassembles the 10-bit PDIV1 value with `pdiv1_full_value`, wrapped in
`u10::new`. -/
def y1_output_divider (b : Bus) : ReadOutcome Nat :=
  let raw : Option Nat := do
    let reg2 ← (read_byte_unchecked b 0x02).1
    let reg3 ← (read_byte_unchecked b 0x03).1
    pure (GenericConfigurationRegister3.pdiv1_full_value reg3 reg2)
  match raw with
  | none => ReadOutcome.busError
  | some x =>
    match u10_new x with
    | some y => ReadOutcome.ok y
    | none => ReadOutcome.panicked

/-- `set_y1_output_divider`: writes `value >> 8` into register 2's PDIV1
high-bit field and `value & 0xFF` into register 3, one read-modify-write
cycle each, aborting on the first transport error. -/
def set_y1_output_divider (b : Bus) (v : Nat) : Bool × Bus × List BusEv :=
  let r1 := modify_byte_unchecked b 0x02
    (fun r => GenericConfigurationRegister2.set_pdiv1_9_8 r (v >>> 8))
  if r1.1 then
    let r2 := modify_byte_unchecked r1.2.1 0x03
      (fun r => GenericConfigurationRegister3.set_pdiv1_7_0 r (v &&& 0xFF))
    (r2.1, r2.2.1, r1.2.2 ++ r2.2.2)
  else (false, r1.2.1, r1.2.2)

/-- `u32::from_be_bytes`. -/
def u32_from_be_bytes (b0 b1 b2 b3 : Nat) : Nat :=
  b0 * 2 ^ 24 + b1 * 2 ^ 16 + b2 * 2 ^ 8 + b3

/-- `u32::to_be_bytes`. -/
def u32_to_be_bytes (w : Nat) : Nat × Nat × Nat × Nat :=
  (w / 2 ^ 24 % 256, w / 2 ^ 16 % 256, w / 2 ^ 8 % 256, w % 256)

/-- `pll1_0_settings`: reads the four bytes at offsets 0x18..0x1B and
assembles them big-endian into the packed PLL word. -/
def pll1_0_settings (b : Bus) : Option Nat := do
  let c0 ← (read_byte_unchecked b 0x18).1
  let c1 ← (read_byte_unchecked b 0x19).1
  let c2 ← (read_byte_unchecked b 0x1A).1
  let c3 ← (read_byte_unchecked b 0x1B).1
  pure (u32_from_be_bytes c0 c1 c2 c3)

/-- `set_pll1_0_settings`: splits the packed word big-endian and writes
the four bytes to offsets 0x18..0x1B in order, aborting on the first
transport error. -/
def set_pll1_0_settings (b : Bus) (w : Nat) : Bool × Bus × List BusEv :=
  let y := u32_to_be_bytes w
  let r0 := write_byte_unchecked b 0x18 y.1
  if r0.1 then
    let r1 := write_byte_unchecked r0.2.1 0x19 y.2.1
    if r1.1 then
      let r2 := write_byte_unchecked r1.2.1 0x1A y.2.2.1
      if r2.1 then
        let r3 := write_byte_unchecked r2.2.1 0x1B y.2.2.2
        (r3.1, r3.2.1, r0.2.2 ++ r1.2.2 ++ r2.2.2 ++ r3.2.2)
      else (false, r2.2.1, r0.2.2 ++ r1.2.2 ++ r2.2.2)
    else (false, r1.2.1, r0.2.2 ++ r1.2.2)
  else (false, r0.2.1, r0.2.2)

/-- `initiate_eeprom_write`: the body is a bare `todo!()` stub, so the
call unconditionally raises a panic before issuing any bus transaction
and never produces a `Result`. -/
def initiate_eeprom_write (b : Bus) : ReadOutcome Bool × Bus × List BusEv :=
  (ReadOutcome.panicked, b, [])

/-- A fault-free device state with every register byte zero. -/
def zeroBus : Bus :=
  { regs := fun _ => 0
    failRead := fun _ => false
    failWrite := fun _ => false }

/-- A fault-free device state whose only nonzero byte is 0x40 at offset
0x12 (PLL1 configuration register 2, bit 6 set). -/
def bugBus : Bus :=
  { regs := fun o => if o = 0x12 then 0x40 else 0
    failRead := fun _ => false
    failWrite := fun _ => false }


/-!
## Plumbing lemmas
-/

theorem Bus.setReg_regs_self (b : Bus) (off v : Nat) :
    (b.setReg off v).regs off = v := by
  simp [Bus.setReg]

theorem Bus.setReg_regs_of_ne (b : Bus) (off v o : Nat) (h : o ≠ off) :
    (b.setReg off v).regs o = b.regs o := by
  simp [Bus.setReg, h]

theorem Bus.setReg_failRead (b : Bus) (off v o : Nat) :
    (b.setReg off v).failRead o = b.failRead o := rfl

theorem Bus.setReg_failWrite (b : Bus) (off v o : Nat) :
    (b.setReg off v).failWrite o = b.failWrite o := rfl

theorem read_byte_unchecked_fst (b : Bus) (off : Nat) (h : b.failRead off = false) :
    (read_byte_unchecked b off).1 = some (b.regs off % 256) := by
  simp [read_byte_unchecked, h]

theorem modify_byte_unchecked_ok (b : Bus) (off : Nat) (f : Nat → Nat)
    (hr : b.failRead off = false) (hw : b.failWrite off = false) :
    modify_byte_unchecked b off f =
      (true, b.setReg off (f (b.regs off % 256) % 256),
        [BusEv.read off (b.regs off % 256),
         BusEv.write off (f (b.regs off % 256) % 256)]) := by
  simp [modify_byte_unchecked, read_byte_unchecked, write_byte_unchecked, hr, hw]

theorem modify_byte_unchecked_failWrite (b : Bus) (off : Nat) (f : Nat → Nat)
    (hr : b.failRead off = false) (hw : b.failWrite off = true) :
    modify_byte_unchecked b off f =
      (false, b,
        [BusEv.read off (b.regs off % 256),
         BusEv.writeFailed off (f (b.regs off % 256) % 256)]) := by
  simp [modify_byte_unchecked, read_byte_unchecked, write_byte_unchecked, hr, hw]

theorem getBits_mod_256 (x hi lo : Nat) (h : hi < 8) :
    getBits (x % 256) hi lo = getBits x hi lo := by
  have h256 : (256 : Nat) = 2 ^ 8 := by norm_num
  apply Nat.eq_of_testBit_eq
  intro i
  simp only [getBits, h256, Nat.testBit_mod_two_pow, Nat.testBit_shiftRight]
  by_cases h1 : i < hi + 1 - lo
  · have : lo + i < 8 := by omega
    simp [h1, this]
  · simp [h1]

theorem bitGet_mod_256 (x i : Nat) (h : i < 8) :
    bitGet (x % 256) i = bitGet x i := by
  have h256 : (256 : Nat) = 2 ^ 8 := by norm_num
  rw [bitGet, bitGet, h256, Nat.testBit_mod_two_pow]
  simp [h]

theorem bitGet_bitSet_self (b i : Nat) (x : Bool) (h : i < 8) :
    bitGet (bitSet b i x) i = x := by
  unfold bitGet bitSet
  rw [testBit_setBitsIn 8 b i i (cond x 1 0) i h (Nat.le_refl i)]
  cases x <;> simp

theorem setBits_getBits_self (b hi lo v : Nat) (hhi : hi < 8) (hlo : lo ≤ hi) :
    getBits (setBits b hi lo v) hi lo = v % 2 ^ (hi + 1 - lo) :=
  getBits_setBitsIn_self 8 b hi lo v hhi hlo

/-!
## Claim theorems
-/

/-- C10: `initiate_eeprom_write` is an unimplemented `todo!()` stub: for
every device state it panics, issues no bus transaction and leaves the
register file untouched, so the EEPROM flash-and-poll operation can never
be observed to succeed or fail through this API. -/
theorem initiate_eeprom_write_always_panics (b : Bus) :
    initiate_eeprom_write b = (ReadOutcome.panicked, b, []) := rfl

set_option maxRecDepth 8000 in
/-- C8: for every access mode and every 8-bit offset, the command byte
built by `CommandCode::new` has bit 7 set exactly when the mode is
`Byte`, and carries the offset reduced to its low 7 bits — every offset
is accepted, its top bit simply discarded. -/
theorem command_code_new_spec (m : OpCode) (off : Nat) (hoff : off < 256) :
    (bitGet (CommandCode.new m off) 7 = true ↔ m = OpCode.Byte) ∧
    CommandCode.offset (CommandCode.new m off) = off % 128 := by
  cases m <;> (revert off; decide)

/-- Witness for C8 at mode `Byte`, offset 0xAB (top bit set, discarded). -/
theorem command_code_new_spec_witness :
    (0xAB : Nat) < 256 ∧
    ((bitGet (CommandCode.new OpCode.Byte 0xAB) 7 = true ↔ OpCode.Byte = OpCode.Byte) ∧
     CommandCode.offset (CommandCode.new OpCode.Byte 0xAB) = 0xAB % 128) :=
  ⟨by decide, command_code_new_spec OpCode.Byte 0xAB (by decide)⟩

set_option maxRecDepth 8000 in
set_option maxHeartbeats 2000000 in
/-- C4: decoding the 2-bit INCLK field maps codes 0b00, 0b01, 0b10 to
`Xtal`, `Vcxo`, `LvCmos`, and the reserved code 0b11 to the documented
fallback `Xtal` rather than an error; encoding any selection and decoding
the resulting byte returns the same selection. -/
theorem input_clock_selection_spec (b : Nat) (hb : b < 256) (s : InputClockSelection) :
    (GenericConfigurationRegister1.inclk b = 0b00 →
      GenericConfigurationRegister1.input_clock_selection b = InputClockSelection.Xtal) ∧
    (GenericConfigurationRegister1.inclk b = 0b01 →
      GenericConfigurationRegister1.input_clock_selection b = InputClockSelection.Vcxo) ∧
    (GenericConfigurationRegister1.inclk b = 0b10 →
      GenericConfigurationRegister1.input_clock_selection b = InputClockSelection.LvCmos) ∧
    (GenericConfigurationRegister1.inclk b = 0b11 →
      GenericConfigurationRegister1.input_clock_selection b = InputClockSelection.Xtal) ∧
    GenericConfigurationRegister1.input_clock_selection
      (GenericConfigurationRegister1.set_input_clock_selection b s) = s := by
  cases s <;> (revert b; decide)

/-- Witness for C4 at byte 0b1100 (INCLK = 0b11, the reserved code) and
selection `LvCmos`. -/
theorem input_clock_selection_spec_witness :
    (0b1100 : Nat) < 256 ∧
    ((GenericConfigurationRegister1.inclk 0b1100 = 0b00 →
      GenericConfigurationRegister1.input_clock_selection 0b1100 = InputClockSelection.Xtal) ∧
    (GenericConfigurationRegister1.inclk 0b1100 = 0b01 →
      GenericConfigurationRegister1.input_clock_selection 0b1100 = InputClockSelection.Vcxo) ∧
    (GenericConfigurationRegister1.inclk 0b1100 = 0b10 →
      GenericConfigurationRegister1.input_clock_selection 0b1100 = InputClockSelection.LvCmos) ∧
    (GenericConfigurationRegister1.inclk 0b1100 = 0b11 →
      GenericConfigurationRegister1.input_clock_selection 0b1100 = InputClockSelection.Xtal) ∧
    GenericConfigurationRegister1.input_clock_selection
      (GenericConfigurationRegister1.set_input_clock_selection 0b1100 InputClockSelection.LvCmos) =
        InputClockSelection.LvCmos) :=
  ⟨by decide, input_clock_selection_spec 0b1100 (by decide) InputClockSelection.LvCmos⟩

/-- C5: the crystal-load-capacitance clamp is saturating and symmetric
between getter and setter: the setter stores `pf` itself for `pf ≤ 19`
and 20 for `pf ≥ 20`; the getter reports a stored 5-bit code `x` for
`x ≤ 19` and 20 otherwise; hence encoding 25 then decoding yields 20 and
encoding 19 then decoding yields 19. -/
theorem crystal_load_capacitance_clamp (b : Nat) (hb : b < 256) (pf : Nat) (hpf : pf < 256) :
    (pf ≤ 19 → GenericConfigurationRegister5.xcsel
      (GenericConfigurationRegister5.set_crystal_load_capacitance_pf b pf) = pf) ∧
    (20 ≤ pf → GenericConfigurationRegister5.xcsel
      (GenericConfigurationRegister5.set_crystal_load_capacitance_pf b pf) = 20) ∧
    (GenericConfigurationRegister5.xcsel b ≤ 19 →
      GenericConfigurationRegister5.crystal_load_capacitance_pf b =
        GenericConfigurationRegister5.xcsel b) ∧
    (20 ≤ GenericConfigurationRegister5.xcsel b →
      GenericConfigurationRegister5.crystal_load_capacitance_pf b = 20) ∧
    GenericConfigurationRegister5.crystal_load_capacitance_pf
      (GenericConfigurationRegister5.set_crystal_load_capacitance_pf b 25) = 20 ∧
    GenericConfigurationRegister5.crystal_load_capacitance_pf
      (GenericConfigurationRegister5.set_crystal_load_capacitance_pf b 19) = 19 := by
  have hset : ∀ q : Nat, GenericConfigurationRegister5.xcsel
      (GenericConfigurationRegister5.set_crystal_load_capacitance_pf b q) =
      (if q < 0x14 then q else 20) % 32 := by
    intro q
    unfold GenericConfigurationRegister5.xcsel
      GenericConfigurationRegister5.set_crystal_load_capacitance_pf
      GenericConfigurationRegister5.set_xcsel setBits
    rw [getBits_setBitsIn_self 8 b 7 3 _ (by norm_num) (by norm_num)]
    norm_num
  have hget : ∀ c : Nat, GenericConfigurationRegister5.crystal_load_capacitance_pf c =
      if GenericConfigurationRegister5.xcsel c < 0x14
      then GenericConfigurationRegister5.xcsel c else 20 := fun c => rfl
  refine ⟨?_, ?_, ?_, ?_, ?_, ?_⟩
  · intro h
    rw [hset, if_pos (by omega : pf < 0x14)]
    omega
  · intro h
    rw [hset, if_neg (by omega : ¬pf < 0x14)]
  · intro h
    rw [hget, if_pos (by omega : GenericConfigurationRegister5.xcsel b < 0x14)]
  · intro h
    rw [hget, if_neg (by omega : ¬GenericConfigurationRegister5.xcsel b < 0x14)]
  · rw [hget, hset]
    norm_num
  · rw [hget, hset]
    norm_num

/-- Witness for C5 at byte 0xFF (stored code 31) and requested 25 pF. -/
theorem crystal_load_capacitance_clamp_witness :
    (0xFF : Nat) < 256 ∧ (25 : Nat) < 256 ∧
    ((25 ≤ 19 → GenericConfigurationRegister5.xcsel
      (GenericConfigurationRegister5.set_crystal_load_capacitance_pf 0xFF 25) = 25) ∧
    (20 ≤ 25 → GenericConfigurationRegister5.xcsel
      (GenericConfigurationRegister5.set_crystal_load_capacitance_pf 0xFF 25) = 20) ∧
    (GenericConfigurationRegister5.xcsel 0xFF ≤ 19 →
      GenericConfigurationRegister5.crystal_load_capacitance_pf 0xFF =
        GenericConfigurationRegister5.xcsel 0xFF) ∧
    (20 ≤ GenericConfigurationRegister5.xcsel 0xFF →
      GenericConfigurationRegister5.crystal_load_capacitance_pf 0xFF = 20) ∧
    GenericConfigurationRegister5.crystal_load_capacitance_pf
      (GenericConfigurationRegister5.set_crystal_load_capacitance_pf 0xFF 25) = 20 ∧
    GenericConfigurationRegister5.crystal_load_capacitance_pf
      (GenericConfigurationRegister5.set_crystal_load_capacitance_pf 0xFF 19) = 19) :=
  ⟨by decide, by decide, crystal_load_capacitance_clamp 0xFF (by decide) 25 (by decide)⟩

/-- C2 fails on the code at control input 1: in PLL1 configuration
register 2 the declared range `ssc1_1: 6, 3` overlaps the sibling field
`ssc1_2: 7, 6` at bit 6, so storing the in-width value 0 for input 1 into
the byte 0x40 (sibling's low bit set, all other bits clear) zeroes the
whole byte: the sibling SSC1_2 field changes from 1 to 0 even though only
input 1's three bits should have been touched. -/
theorem set_ssc1_1_clobbers_sibling_bit :
    Pll1ConfigurationRegister2.ssc1_2 0x40 = 1 ∧
    Pll1ConfigurationRegister2.set_ssc1_1 0x40 0 = 0 ∧
    Pll1ConfigurationRegister2.ssc1_2 (Pll1ConfigurationRegister2.set_ssc1_1 0x40 0) = 0 := by
  decide

/-- C3 fails on the code at control input 1: with register 0x12 holding
0x40, the getter `ssc1_1` (declared `6, 3`, four bits wide) returns 8,
and `u3::new(8)` raises an assertion failure, so the read does not return
a defined value for this perfectly reachable register contents. -/
theorem ssc_read_panics_at_input1 :
    Pll1ConfigurationRegister2.ssc1_1 0x40 = 8 ∧
    spread_spectrum_clocking_selection_raw bugBus 1 = ReadOutcome.panicked := by
  constructor
  · decide
  · rfl

theorem shiftRight8_lt_four (v : Nat) (hv : v < 1024) : v >>> 8 < 4 := by
  rw [Nat.shiftRight_eq_div_pow]
  omega

theorem and255_lt_256 (v : Nat) : v &&& 255 < 256 := by
  have h : v &&& 255 < 2 ^ 8 := Nat.and_lt_two_pow v (by norm_num)
  norm_num at h
  exact h

theorem setBits_full_byte (b y : Nat) : setBits b 7 0 y = y % 256 := by
  unfold setBits setBitsIn fieldMask
  norm_num

theorem getBits_full_byte (x : Nat) : getBits x 7 0 = x % 256 := by
  unfold getBits
  norm_num

theorem high_low_recombine (v : Nat) : ((v >>> 8) <<< 8) ||| (v &&& 255) = v := by
  have h255 : (255 : Nat) = 2 ^ 8 - 1 := by norm_num
  apply Nat.eq_of_testBit_eq
  intro i
  rw [h255]
  simp only [Nat.testBit_or, Nat.testBit_shiftLeft, Nat.testBit_shiftRight,
    Nat.testBit_and, Nat.testBit_two_pow_sub_one]
  by_cases h : i < 8
  · have h2 : ¬8 ≤ i := by omega
    simp [h, h2]
  · have h2 : 8 ≤ i := by omega
    have h3 : 8 + (i - 8) = i := by omega
    simp [h, h2, h3]

/-- C6: the 10-bit Y1 output divider is split with its high 2 bits in the
PDIV1 field of generic configuration register 2 (offset 0x02) and its low
8 bits in register 3 (offset 0x03): for every 10-bit value, the setter
stores `value >> 8` in the high field and `value & 0xFF` in the low
register, and the getter reconstructs the value as `(hi << 8) | lo`. -/
theorem y1_output_divider_split_roundtrip (b : Bus) (v : Nat) (hv : v < 1024)
    (hr : ∀ o, b.failRead o = false) (hw : ∀ o, b.failWrite o = false) :
    GenericConfigurationRegister2.pdiv1_9_8
      ((set_y1_output_divider b v).2.1.regs 0x02) = v >>> 8 ∧
    (set_y1_output_divider b v).2.1.regs 0x03 = v &&& 0xFF ∧
    y1_output_divider (set_y1_output_divider b v).2.1 = ReadOutcome.ok v := by
  have hhi4 : v >>> 8 < 4 := shiftRight8_lt_four v hv
  have hlo256 : v &&& 255 < 256 := and255_lt_256 v
  simp only [set_y1_output_divider]
  rw [modify_byte_unchecked_ok _ _ _ (hr 0x02) (hw 0x02)]
  simp only [if_true]
  rw [modify_byte_unchecked_ok _ 0x03 _ (by simp [Bus.setReg_failRead, hr])
    (by simp [Bus.setReg_failWrite, hw])]
  rw [Bus.setReg_regs_of_ne b 2 _ 3 (by norm_num)]
  have e2 : GenericConfigurationRegister3.set_pdiv1_7_0 (b.regs 3 % 256) (v &&& 255) % 256
      = v &&& 255 := by
    unfold GenericConfigurationRegister3.set_pdiv1_7_0
    rw [setBits_full_byte, Nat.mod_eq_of_lt hlo256, Nat.mod_eq_of_lt hlo256]
  rw [e2]
  rw [Bus.setReg_regs_of_ne _ 3 _ 2 (by norm_num), Bus.setReg_regs_self,
    Bus.setReg_regs_self]
  refine ⟨?_, rfl, ?_⟩
  · unfold GenericConfigurationRegister2.pdiv1_9_8 GenericConfigurationRegister2.set_pdiv1_9_8
    rw [getBits_mod_256 _ _ _ (by norm_num)]
    unfold setBits
    rw [getBits_setBitsIn_self 8 _ 1 0 _ (by norm_num) (by norm_num)]
    norm_num
    exact hhi4
  · unfold y1_output_divider
    rw [read_byte_unchecked_fst _ 2 (by simp [Bus.setReg_failRead, hr]),
      read_byte_unchecked_fst _ 3 (by simp [Bus.setReg_failRead, hr])]
    rw [Bus.setReg_regs_of_ne _ 3 _ 2 (by norm_num), Bus.setReg_regs_self,
      Bus.setReg_regs_self]
    have e3 : getBits (GenericConfigurationRegister2.set_pdiv1_9_8 (b.regs 2 % 256)
        (v >>> 8) % 256 % 256) 1 0 = v >>> 8 := by
      unfold GenericConfigurationRegister2.set_pdiv1_9_8
      rw [getBits_mod_256 _ _ _ (by norm_num), getBits_mod_256 _ _ _ (by norm_num)]
      unfold setBits
      rw [getBits_setBitsIn_self 8 _ 1 0 _ (by norm_num) (by norm_num)]
      norm_num
      exact hhi4
    have e4 : getBits ((v &&& 255) % 256) 7 0 = v &&& 255 := by
      rw [Nat.mod_eq_of_lt hlo256, getBits_full_byte, Nat.mod_eq_of_lt hlo256]
    simp only [Option.bind_eq_bind, Option.some_bind,
      GenericConfigurationRegister3.pdiv1_full_value,
      GenericConfigurationRegister2.pdiv1_9_8, GenericConfigurationRegister3.pdiv1_7_0,
      e3, e4, pure]
    rw [high_low_recombine]
    simp [u10_new, hv]

theorem ssc_recombine5 (v : Nat) (hv : v < 8) :
    ((v >>> 1) <<< 1) ||| (cond (v % 2 == 1) 1 0) = v := by
  revert v
  decide

theorem ssc_recombine2 (v : Nat) (hv : v < 8) :
    ((cond (v >>> 2 != 0) 1 0) <<< 2) ||| (v &&& 3) = v := by
  revert v
  decide

/-- C1: for every control-input index 0..=7 and every 3-bit value,
writing the spread-spectrum-clocking selection and reading it back
returns the written value — decode of encode is the identity for every
index, including the split indices 5 and 2. -/
theorem ssc_selection_roundtrip (b : Bus) (i v : Nat) (hi8 : i < 8) (hv : v < 8)
    (hr : ∀ o, b.failRead o = false) (hw : ∀ o, b.failWrite o = false) :
    spread_spectrum_clocking_selection_raw
      ((set_spread_spectrum_clocking_selection_raw b i v).2.1) i = ReadOutcome.ok v := by
  have h51 : v >>> 1 < 4 := by
    rw [Nat.shiftRight_eq_div_pow]
    omega
  have h23 : v &&& 3 < 4 := by
    have h := Nat.and_lt_two_pow v (show (3 : Nat) < 2 ^ 2 by norm_num)
    norm_num at h
    exact h
  have h16 : v < 16 := by omega
  interval_cases i <;>
    simp [spread_spectrum_clocking_selection_raw, set_spread_spectrum_clocking_selection_raw,
      modify_byte_unchecked_ok, Bus.setReg_failRead, Bus.setReg_failWrite, hr, hw,
      read_byte_unchecked_fst, Bus.setReg_regs_self, Bus.setReg_regs_of_ne,
      Pll1ConfigurationRegister0.ssc1_7, Pll1ConfigurationRegister0.set_ssc1_7,
      Pll1ConfigurationRegister0.ssc1_6, Pll1ConfigurationRegister0.set_ssc1_6,
      Pll1ConfigurationRegister0.ssc1_5, Pll1ConfigurationRegister0.set_ssc1_5,
      Pll1ConfigurationRegister1.ssc1_5, Pll1ConfigurationRegister1.set_ssc1_5,
      Pll1ConfigurationRegister1.ssc1_4, Pll1ConfigurationRegister1.set_ssc1_4,
      Pll1ConfigurationRegister1.ssc1_3, Pll1ConfigurationRegister1.set_ssc1_3,
      Pll1ConfigurationRegister1.ssc1_2, Pll1ConfigurationRegister1.set_ssc1_2,
      Pll1ConfigurationRegister2.ssc1_2, Pll1ConfigurationRegister2.set_ssc1_2,
      Pll1ConfigurationRegister2.ssc1_1, Pll1ConfigurationRegister2.set_ssc1_1,
      Pll1ConfigurationRegister2.ssc1_0, Pll1ConfigurationRegister2.set_ssc1_0,
      setBits, getBits_mod_256, bitGet_mod_256, getBits_setBitsIn_self, bitGet_bitSet_self,
      u3_new, hv, Nat.mod_eq_of_lt hv, Nat.mod_eq_of_lt h51, Nat.mod_eq_of_lt h23,
      Nat.mod_eq_of_lt h16, ssc_recombine5 v hv, ssc_recombine2 v hv]

/-- Witness for C1 at control input 5 (a split index), value 5, on the
all-zero fault-free device. -/
theorem ssc_selection_roundtrip_witness :
    (5 : Nat) < 8 ∧ (5 : Nat) < 8 ∧
    (∀ o, zeroBus.failRead o = false) ∧ (∀ o, zeroBus.failWrite o = false) ∧
    spread_spectrum_clocking_selection_raw
      ((set_spread_spectrum_clocking_selection_raw zeroBus 5 5).2.1) 5 = ReadOutcome.ok 5 :=
  ⟨by decide, by decide, fun _ => rfl, fun _ => rfl,
    ssc_selection_roundtrip zeroBus 5 5 (by decide) (by decide) (fun _ => rfl) (fun _ => rfl)⟩

/-- Witness for C6 at divider value 0x2AB on the all-zero fault-free
device: the high field takes 0b10 and the low register 0xAB. -/
theorem y1_output_divider_split_roundtrip_witness :
    (0x2AB : Nat) < 1024 ∧
    (∀ o, zeroBus.failRead o = false) ∧ (∀ o, zeroBus.failWrite o = false) ∧
    (GenericConfigurationRegister2.pdiv1_9_8
      ((set_y1_output_divider zeroBus 0x2AB).2.1.regs 0x02) = 0x2AB >>> 8 ∧
    (set_y1_output_divider zeroBus 0x2AB).2.1.regs 0x03 = 0x2AB &&& 0xFF ∧
    y1_output_divider (set_y1_output_divider zeroBus 0x2AB).2.1 = ReadOutcome.ok 0x2AB) :=
  ⟨by decide, fun _ => rfl, fun _ => rfl,
    y1_output_divider_split_roundtrip zeroBus 0x2AB (by decide) (fun _ => rfl) (fun _ => rfl)⟩

/-- C7: assembling any 4 bytes into the packed PLL word big-endian and
splitting it back reproduces the bytes exactly (and conversely for any
32-bit word), and the word has the declared dense layout — a 12-bit N
field at bits 31..20, a 9-bit R field at bits 19..11, a 6-bit Q field at
bits 10..5, a 3-bit P field at bits 4..2 and a 2-bit VCO-range field at
bits 1..0 — so that writing an in-width value to any subfield reads back
losslessly and leaves the other four subfields unchanged. -/
theorem pll_settings_word_spec (b0 b1 b2 b3 w v : Nat)
    (h0 : b0 < 256) (h1 : b1 < 256) (h2 : b2 < 256) (h3 : b3 < 256)
    (hw : w < 2 ^ 32) :
    u32_to_be_bytes (u32_from_be_bytes b0 b1 b2 b3) = (b0, b1, b2, b3) ∧
    u32_from_be_bytes (u32_to_be_bytes w).1 (u32_to_be_bytes w).2.1
      (u32_to_be_bytes w).2.2.1 (u32_to_be_bytes w).2.2.2 = w ∧
    (v < 2 ^ 12 → PllSettings.pllx_yn (PllSettings.set_pllx_yn w v) = v) ∧
    PllSettings.pllx_yr (PllSettings.set_pllx_yn w v) = PllSettings.pllx_yr w ∧
    PllSettings.pllx_yq (PllSettings.set_pllx_yn w v) = PllSettings.pllx_yq w ∧
    PllSettings.pllx_yp (PllSettings.set_pllx_yn w v) = PllSettings.pllx_yp w ∧
    PllSettings.vco1x_y_range (PllSettings.set_pllx_yn w v) = PllSettings.vco1x_y_range w ∧
    (v < 2 ^ 9 → PllSettings.pllx_yr (PllSettings.set_pllx_yr w v) = v) ∧
    PllSettings.pllx_yn (PllSettings.set_pllx_yr w v) = PllSettings.pllx_yn w ∧
    PllSettings.pllx_yq (PllSettings.set_pllx_yr w v) = PllSettings.pllx_yq w ∧
    PllSettings.pllx_yp (PllSettings.set_pllx_yr w v) = PllSettings.pllx_yp w ∧
    PllSettings.vco1x_y_range (PllSettings.set_pllx_yr w v) = PllSettings.vco1x_y_range w ∧
    (v < 2 ^ 6 → PllSettings.pllx_yq (PllSettings.set_pllx_yq w v) = v) ∧
    PllSettings.pllx_yn (PllSettings.set_pllx_yq w v) = PllSettings.pllx_yn w ∧
    PllSettings.pllx_yr (PllSettings.set_pllx_yq w v) = PllSettings.pllx_yr w ∧
    PllSettings.pllx_yp (PllSettings.set_pllx_yq w v) = PllSettings.pllx_yp w ∧
    PllSettings.vco1x_y_range (PllSettings.set_pllx_yq w v) = PllSettings.vco1x_y_range w ∧
    (v < 2 ^ 3 → PllSettings.pllx_yp (PllSettings.set_pllx_yp w v) = v) ∧
    PllSettings.pllx_yn (PllSettings.set_pllx_yp w v) = PllSettings.pllx_yn w ∧
    PllSettings.pllx_yr (PllSettings.set_pllx_yp w v) = PllSettings.pllx_yr w ∧
    PllSettings.pllx_yq (PllSettings.set_pllx_yp w v) = PllSettings.pllx_yq w ∧
    PllSettings.vco1x_y_range (PllSettings.set_pllx_yp w v) = PllSettings.vco1x_y_range w ∧
    (v < 2 ^ 2 → PllSettings.vco1x_y_range (PllSettings.set_vcox_y_range w v) = v) ∧
    PllSettings.pllx_yn (PllSettings.set_vcox_y_range w v) = PllSettings.pllx_yn w ∧
    PllSettings.pllx_yr (PllSettings.set_vcox_y_range w v) = PllSettings.pllx_yr w ∧
    PllSettings.pllx_yq (PllSettings.set_vcox_y_range w v) = PllSettings.pllx_yq w ∧
    PllSettings.pllx_yp (PllSettings.set_vcox_y_range w v) = PllSettings.pllx_yp w := by
  refine ⟨?_, ?_, ?_, ?_, ?_, ?_, ?_, ?_, ?_, ?_, ?_, ?_, ?_, ?_, ?_, ?_, ?_, ?_, ?_, ?_, ?_, ?_, ?_, ?_, ?_, ?_, ?_⟩
  · unfold u32_from_be_bytes u32_to_be_bytes
    simp only [Prod.mk.injEq]
    norm_num
    omega
  · unfold u32_from_be_bytes u32_to_be_bytes
    norm_num
    omega
  · exact fun hv => (getBits_setBitsIn_self 32 w 31 20 v (by norm_num)
        (by norm_num)).trans (Nat.mod_eq_of_lt hv)
  · exact getBits_setBitsIn_outside 32 w 31 20 v 19 11 (by norm_num)
        (by norm_num) (by norm_num) (by omega)
  · exact getBits_setBitsIn_outside 32 w 31 20 v 10 5 (by norm_num)
        (by norm_num) (by norm_num) (by omega)
  · exact getBits_setBitsIn_outside 32 w 31 20 v 4 2 (by norm_num)
        (by norm_num) (by norm_num) (by omega)
  · exact getBits_setBitsIn_outside 32 w 31 20 v 1 0 (by norm_num)
        (by norm_num) (by norm_num) (by omega)
  · exact fun hv => (getBits_setBitsIn_self 32 w 19 11 v (by norm_num)
        (by norm_num)).trans (Nat.mod_eq_of_lt hv)
  · exact getBits_setBitsIn_outside 32 w 19 11 v 31 20 (by norm_num)
        (by norm_num) (by norm_num) (by omega)
  · exact getBits_setBitsIn_outside 32 w 19 11 v 10 5 (by norm_num)
        (by norm_num) (by norm_num) (by omega)
  · exact getBits_setBitsIn_outside 32 w 19 11 v 4 2 (by norm_num)
        (by norm_num) (by norm_num) (by omega)
  · exact getBits_setBitsIn_outside 32 w 19 11 v 1 0 (by norm_num)
        (by norm_num) (by norm_num) (by omega)
  · exact fun hv => (getBits_setBitsIn_self 32 w 10 5 v (by norm_num)
        (by norm_num)).trans (Nat.mod_eq_of_lt hv)
  · exact getBits_setBitsIn_outside 32 w 10 5 v 31 20 (by norm_num)
        (by norm_num) (by norm_num) (by omega)
  · exact getBits_setBitsIn_outside 32 w 10 5 v 19 11 (by norm_num)
        (by norm_num) (by norm_num) (by omega)
  · exact getBits_setBitsIn_outside 32 w 10 5 v 4 2 (by norm_num)
        (by norm_num) (by norm_num) (by omega)
  · exact getBits_setBitsIn_outside 32 w 10 5 v 1 0 (by norm_num)
        (by norm_num) (by norm_num) (by omega)
  · exact fun hv => (getBits_setBitsIn_self 32 w 4 2 v (by norm_num)
        (by norm_num)).trans (Nat.mod_eq_of_lt hv)
  · exact getBits_setBitsIn_outside 32 w 4 2 v 31 20 (by norm_num)
        (by norm_num) (by norm_num) (by omega)
  · exact getBits_setBitsIn_outside 32 w 4 2 v 19 11 (by norm_num)
        (by norm_num) (by norm_num) (by omega)
  · exact getBits_setBitsIn_outside 32 w 4 2 v 10 5 (by norm_num)
        (by norm_num) (by norm_num) (by omega)
  · exact getBits_setBitsIn_outside 32 w 4 2 v 1 0 (by norm_num)
        (by norm_num) (by norm_num) (by omega)
  · exact fun hv => (getBits_setBitsIn_self 32 w 1 0 v (by norm_num)
        (by norm_num)).trans (Nat.mod_eq_of_lt hv)
  · exact getBits_setBitsIn_outside 32 w 1 0 v 31 20 (by norm_num)
        (by norm_num) (by norm_num) (by omega)
  · exact getBits_setBitsIn_outside 32 w 1 0 v 19 11 (by norm_num)
        (by norm_num) (by norm_num) (by omega)
  · exact getBits_setBitsIn_outside 32 w 1 0 v 10 5 (by norm_num)
        (by norm_num) (by norm_num) (by omega)
  · exact getBits_setBitsIn_outside 32 w 1 0 v 4 2 (by norm_num)
        (by norm_num) (by norm_num) (by omega)

/-- Witness for C7 at bytes 0x12 0x34 0x56 0x78, word 0x89ABCDEF and
subfield value 3. -/
theorem pll_settings_word_spec_witness :
    ((0x12 : Nat) < 256 ∧ (0x34 : Nat) < 256 ∧ (0x56 : Nat) < 256 ∧
     (0x78 : Nat) < 256 ∧ (0x89ABCDEF : Nat) < 2 ^ 32) ∧
    (u32_to_be_bytes (u32_from_be_bytes 0x12 0x34 0x56 0x78) = (0x12, 0x34, 0x56, 0x78) ∧
    u32_from_be_bytes (u32_to_be_bytes 0x89ABCDEF).1 (u32_to_be_bytes 0x89ABCDEF).2.1
      (u32_to_be_bytes 0x89ABCDEF).2.2.1 (u32_to_be_bytes 0x89ABCDEF).2.2.2 = 0x89ABCDEF ∧
    (3 < 2 ^ 12 → PllSettings.pllx_yn (PllSettings.set_pllx_yn 0x89ABCDEF 3) = 3) ∧
    PllSettings.pllx_yr (PllSettings.set_pllx_yn 0x89ABCDEF 3) = PllSettings.pllx_yr 0x89ABCDEF ∧
    PllSettings.pllx_yq (PllSettings.set_pllx_yn 0x89ABCDEF 3) = PllSettings.pllx_yq 0x89ABCDEF ∧
    PllSettings.pllx_yp (PllSettings.set_pllx_yn 0x89ABCDEF 3) = PllSettings.pllx_yp 0x89ABCDEF ∧
    PllSettings.vco1x_y_range (PllSettings.set_pllx_yn 0x89ABCDEF 3) = PllSettings.vco1x_y_range 0x89ABCDEF ∧
    (3 < 2 ^ 9 → PllSettings.pllx_yr (PllSettings.set_pllx_yr 0x89ABCDEF 3) = 3) ∧
    PllSettings.pllx_yn (PllSettings.set_pllx_yr 0x89ABCDEF 3) = PllSettings.pllx_yn 0x89ABCDEF ∧
    PllSettings.pllx_yq (PllSettings.set_pllx_yr 0x89ABCDEF 3) = PllSettings.pllx_yq 0x89ABCDEF ∧
    PllSettings.pllx_yp (PllSettings.set_pllx_yr 0x89ABCDEF 3) = PllSettings.pllx_yp 0x89ABCDEF ∧
    PllSettings.vco1x_y_range (PllSettings.set_pllx_yr 0x89ABCDEF 3) = PllSettings.vco1x_y_range 0x89ABCDEF ∧
    (3 < 2 ^ 6 → PllSettings.pllx_yq (PllSettings.set_pllx_yq 0x89ABCDEF 3) = 3) ∧
    PllSettings.pllx_yn (PllSettings.set_pllx_yq 0x89ABCDEF 3) = PllSettings.pllx_yn 0x89ABCDEF ∧
    PllSettings.pllx_yr (PllSettings.set_pllx_yq 0x89ABCDEF 3) = PllSettings.pllx_yr 0x89ABCDEF ∧
    PllSettings.pllx_yp (PllSettings.set_pllx_yq 0x89ABCDEF 3) = PllSettings.pllx_yp 0x89ABCDEF ∧
    PllSettings.vco1x_y_range (PllSettings.set_pllx_yq 0x89ABCDEF 3) = PllSettings.vco1x_y_range 0x89ABCDEF ∧
    (3 < 2 ^ 3 → PllSettings.pllx_yp (PllSettings.set_pllx_yp 0x89ABCDEF 3) = 3) ∧
    PllSettings.pllx_yn (PllSettings.set_pllx_yp 0x89ABCDEF 3) = PllSettings.pllx_yn 0x89ABCDEF ∧
    PllSettings.pllx_yr (PllSettings.set_pllx_yp 0x89ABCDEF 3) = PllSettings.pllx_yr 0x89ABCDEF ∧
    PllSettings.pllx_yq (PllSettings.set_pllx_yp 0x89ABCDEF 3) = PllSettings.pllx_yq 0x89ABCDEF ∧
    PllSettings.vco1x_y_range (PllSettings.set_pllx_yp 0x89ABCDEF 3) = PllSettings.vco1x_y_range 0x89ABCDEF ∧
    (3 < 2 ^ 2 → PllSettings.vco1x_y_range (PllSettings.set_vcox_y_range 0x89ABCDEF 3) = 3) ∧
    PllSettings.pllx_yn (PllSettings.set_vcox_y_range 0x89ABCDEF 3) = PllSettings.pllx_yn 0x89ABCDEF ∧
    PllSettings.pllx_yr (PllSettings.set_vcox_y_range 0x89ABCDEF 3) = PllSettings.pllx_yr 0x89ABCDEF ∧
    PllSettings.pllx_yq (PllSettings.set_vcox_y_range 0x89ABCDEF 3) = PllSettings.pllx_yq 0x89ABCDEF ∧
    PllSettings.pllx_yp (PllSettings.set_vcox_y_range 0x89ABCDEF 3) = PllSettings.pllx_yp 0x89ABCDEF) :=
  ⟨⟨by decide, by decide, by decide, by decide, by norm_num⟩,
    pll_settings_word_spec 0x12 0x34 0x56 0x78 0x89ABCDEF 3
      (by decide) (by decide) (by decide) (by decide) (by norm_num)⟩

/-- C9: every multi-register write — the 10-bit divider split and the
spread-spectrum splits for indices 5 and 2 — performs one independent
read-modify-write cycle per touched register in ascending offset order,
and a transport failure aborts the remaining sequence immediately without
rollback: if the first register's write fails the second register is
never written, and if the second write fails the first keeps its new
value. -/
theorem multi_register_write_sequencing (b : Bus) (w v : Nat)
    (hw1024 : w < 1024) (hv : v < 8) (hr : ∀ o, b.failRead o = false) :
    (b.failWrite 0x02 = false → b.failWrite 0x03 = false →
      (set_y1_output_divider b w).2.2 =
        [BusEv.read 0x02 (b.regs 0x02 % 256),
         BusEv.write 0x02 (GenericConfigurationRegister2.set_pdiv1_9_8 (b.regs 0x02 % 256) (w >>> 8) % 256),
         BusEv.read 0x03 (b.regs 0x03 % 256),
         BusEv.write 0x03 (GenericConfigurationRegister3.set_pdiv1_7_0 (b.regs 0x03 % 256) (w &&& 0xFF) % 256)]) ∧
    (b.failWrite 0x02 = true →
      (set_y1_output_divider b w).1 = false ∧
      (∀ o, (set_y1_output_divider b w).2.1.regs o = b.regs o) ∧
      (set_y1_output_divider b w).2.2 =
        [BusEv.read 0x02 (b.regs 0x02 % 256),
         BusEv.writeFailed 0x02 (GenericConfigurationRegister2.set_pdiv1_9_8 (b.regs 0x02 % 256) (w >>> 8) % 256)]) ∧
    (b.failWrite 0x02 = false → b.failWrite 0x03 = true →
      (set_y1_output_divider b w).1 = false ∧
      (set_y1_output_divider b w).2.1.regs 0x02 = GenericConfigurationRegister2.set_pdiv1_9_8 (b.regs 0x02 % 256) (w >>> 8) % 256 ∧
      (set_y1_output_divider b w).2.1.regs 0x03 = b.regs 0x03) ∧
    (b.failWrite 0x10 = false → b.failWrite 0x11 = false →
      (set_spread_spectrum_clocking_selection_raw b 5 v).2.2 =
        [BusEv.read 0x10 (b.regs 0x10 % 256),
         BusEv.write 0x10 (Pll1ConfigurationRegister0.set_ssc1_5 (b.regs 0x10 % 256) (v >>> 1) % 256),
         BusEv.read 0x11 (b.regs 0x11 % 256),
         BusEv.write 0x11 (Pll1ConfigurationRegister1.set_ssc1_5 (b.regs 0x11 % 256) (v &&& 1 != 0) % 256)]) ∧
    (b.failWrite 0x10 = true →
      (set_spread_spectrum_clocking_selection_raw b 5 v).1 = false ∧
      (∀ o, (set_spread_spectrum_clocking_selection_raw b 5 v).2.1.regs o = b.regs o) ∧
      (set_spread_spectrum_clocking_selection_raw b 5 v).2.2 =
        [BusEv.read 0x10 (b.regs 0x10 % 256),
         BusEv.writeFailed 0x10 (Pll1ConfigurationRegister0.set_ssc1_5 (b.regs 0x10 % 256) (v >>> 1) % 256)]) ∧
    (b.failWrite 0x10 = false → b.failWrite 0x11 = true →
      (set_spread_spectrum_clocking_selection_raw b 5 v).1 = false ∧
      (set_spread_spectrum_clocking_selection_raw b 5 v).2.1.regs 0x10 = Pll1ConfigurationRegister0.set_ssc1_5 (b.regs 0x10 % 256) (v >>> 1) % 256 ∧
      (set_spread_spectrum_clocking_selection_raw b 5 v).2.1.regs 0x11 = b.regs 0x11) ∧
    (b.failWrite 0x11 = false → b.failWrite 0x12 = false →
      (set_spread_spectrum_clocking_selection_raw b 2 v).2.2 =
        [BusEv.read 0x11 (b.regs 0x11 % 256),
         BusEv.write 0x11 (Pll1ConfigurationRegister1.set_ssc1_2 (b.regs 0x11 % 256) (v >>> 2 != 0) % 256),
         BusEv.read 0x12 (b.regs 0x12 % 256),
         BusEv.write 0x12 (Pll1ConfigurationRegister2.set_ssc1_2 (b.regs 0x12 % 256) (v &&& 3) % 256)]) ∧
    (b.failWrite 0x11 = true →
      (set_spread_spectrum_clocking_selection_raw b 2 v).1 = false ∧
      (∀ o, (set_spread_spectrum_clocking_selection_raw b 2 v).2.1.regs o = b.regs o) ∧
      (set_spread_spectrum_clocking_selection_raw b 2 v).2.2 =
        [BusEv.read 0x11 (b.regs 0x11 % 256),
         BusEv.writeFailed 0x11 (Pll1ConfigurationRegister1.set_ssc1_2 (b.regs 0x11 % 256) (v >>> 2 != 0) % 256)]) ∧
    (b.failWrite 0x11 = false → b.failWrite 0x12 = true →
      (set_spread_spectrum_clocking_selection_raw b 2 v).1 = false ∧
      (set_spread_spectrum_clocking_selection_raw b 2 v).2.1.regs 0x11 = Pll1ConfigurationRegister1.set_ssc1_2 (b.regs 0x11 % 256) (v >>> 2 != 0) % 256 ∧
      (set_spread_spectrum_clocking_selection_raw b 2 v).2.1.regs 0x12 = b.regs 0x12) := by
  refine ⟨?_, ?_, ?_, ?_, ?_, ?_, ?_, ?_, ?_⟩
  · intro hw1 hw2
    simp only [set_y1_output_divider]
    rw [modify_byte_unchecked_ok _ _ _ (hr 0x02) hw1]
    simp only [if_true]
    rw [modify_byte_unchecked_ok _ 0x03 _ (by simp [Bus.setReg_failRead, hr])
      (by simp [Bus.setReg_failWrite, hw2])]
    rw [Bus.setReg_regs_of_ne b 0x02 _ 0x03 (by norm_num)]
    rfl
  · intro hw1
    simp only [set_y1_output_divider]
    rw [modify_byte_unchecked_failWrite _ _ _ (hr 0x02) hw1]
    simp only [Bool.false_eq_true, if_false]
    exact ⟨trivial, fun o => trivial, trivial⟩
  · intro hw1 hw2
    simp only [set_y1_output_divider]
    rw [modify_byte_unchecked_ok _ _ _ (hr 0x02) hw1]
    simp only [if_true]
    rw [modify_byte_unchecked_failWrite _ 0x03 _ (by simp [Bus.setReg_failRead, hr])
      (by simp [Bus.setReg_failWrite, hw2])]
    refine ⟨rfl, ?_, ?_⟩
    · rw [Bus.setReg_regs_self]
    · rw [Bus.setReg_regs_of_ne _ _ _ _ (by norm_num)]
  · intro hw1 hw2
    simp only [set_spread_spectrum_clocking_selection_raw]
    rw [modify_byte_unchecked_ok _ _ _ (hr 0x10) hw1]
    simp only [if_true]
    rw [modify_byte_unchecked_ok _ 0x11 _ (by simp [Bus.setReg_failRead, hr])
      (by simp [Bus.setReg_failWrite, hw2])]
    rw [Bus.setReg_regs_of_ne b 0x10 _ 0x11 (by norm_num)]
    rfl
  · intro hw1
    simp only [set_spread_spectrum_clocking_selection_raw]
    rw [modify_byte_unchecked_failWrite _ _ _ (hr 0x10) hw1]
    simp only [Bool.false_eq_true, if_false]
    exact ⟨trivial, fun o => trivial, trivial⟩
  · intro hw1 hw2
    simp only [set_spread_spectrum_clocking_selection_raw]
    rw [modify_byte_unchecked_ok _ _ _ (hr 0x10) hw1]
    simp only [if_true]
    rw [modify_byte_unchecked_failWrite _ 0x11 _ (by simp [Bus.setReg_failRead, hr])
      (by simp [Bus.setReg_failWrite, hw2])]
    refine ⟨rfl, ?_, ?_⟩
    · rw [Bus.setReg_regs_self]
    · rw [Bus.setReg_regs_of_ne _ _ _ _ (by norm_num)]
  · intro hw1 hw2
    simp only [set_spread_spectrum_clocking_selection_raw]
    rw [modify_byte_unchecked_ok _ _ _ (hr 0x11) hw1]
    simp only [if_true]
    rw [modify_byte_unchecked_ok _ 0x12 _ (by simp [Bus.setReg_failRead, hr])
      (by simp [Bus.setReg_failWrite, hw2])]
    rw [Bus.setReg_regs_of_ne b 0x11 _ 0x12 (by norm_num)]
    rfl
  · intro hw1
    simp only [set_spread_spectrum_clocking_selection_raw]
    rw [modify_byte_unchecked_failWrite _ _ _ (hr 0x11) hw1]
    simp only [Bool.false_eq_true, if_false]
    exact ⟨trivial, fun o => trivial, trivial⟩
  · intro hw1 hw2
    simp only [set_spread_spectrum_clocking_selection_raw]
    rw [modify_byte_unchecked_ok _ _ _ (hr 0x11) hw1]
    simp only [if_true]
    rw [modify_byte_unchecked_failWrite _ 0x12 _ (by simp [Bus.setReg_failRead, hr])
      (by simp [Bus.setReg_failWrite, hw2])]
    refine ⟨rfl, ?_, ?_⟩
    · rw [Bus.setReg_regs_self]
    · rw [Bus.setReg_regs_of_ne _ _ _ _ (by norm_num)]

/-- Witness for C9 at divider value 0x2AB and selection value 5 on the
all-zero fault-free device. -/
theorem multi_register_write_sequencing_witness :
    ((0x2AB : Nat) < 1024 ∧ (5 : Nat) < 8 ∧ (∀ o, zeroBus.failRead o = false)) ∧
    ((zeroBus.failWrite 0x02 = false → zeroBus.failWrite 0x03 = false →
      (set_y1_output_divider zeroBus 0x2AB).2.2 =
        [BusEv.read 0x02 (zeroBus.regs 0x02 % 256),
         BusEv.write 0x02 (GenericConfigurationRegister2.set_pdiv1_9_8 (zeroBus.regs 0x02 % 256) (0x2AB >>> 8) % 256),
         BusEv.read 0x03 (zeroBus.regs 0x03 % 256),
         BusEv.write 0x03 (GenericConfigurationRegister3.set_pdiv1_7_0 (zeroBus.regs 0x03 % 256) (0x2AB &&& 0xFF) % 256)]) ∧
    (zeroBus.failWrite 0x02 = true →
      (set_y1_output_divider zeroBus 0x2AB).1 = false ∧
      (∀ o, (set_y1_output_divider zeroBus 0x2AB).2.1.regs o = zeroBus.regs o) ∧
      (set_y1_output_divider zeroBus 0x2AB).2.2 =
        [BusEv.read 0x02 (zeroBus.regs 0x02 % 256),
         BusEv.writeFailed 0x02 (GenericConfigurationRegister2.set_pdiv1_9_8 (zeroBus.regs 0x02 % 256) (0x2AB >>> 8) % 256)]) ∧
    (zeroBus.failWrite 0x02 = false → zeroBus.failWrite 0x03 = true →
      (set_y1_output_divider zeroBus 0x2AB).1 = false ∧
      (set_y1_output_divider zeroBus 0x2AB).2.1.regs 0x02 = GenericConfigurationRegister2.set_pdiv1_9_8 (zeroBus.regs 0x02 % 256) (0x2AB >>> 8) % 256 ∧
      (set_y1_output_divider zeroBus 0x2AB).2.1.regs 0x03 = zeroBus.regs 0x03) ∧
    (zeroBus.failWrite 0x10 = false → zeroBus.failWrite 0x11 = false →
      (set_spread_spectrum_clocking_selection_raw zeroBus 5 5).2.2 =
        [BusEv.read 0x10 (zeroBus.regs 0x10 % 256),
         BusEv.write 0x10 (Pll1ConfigurationRegister0.set_ssc1_5 (zeroBus.regs 0x10 % 256) (5 >>> 1) % 256),
         BusEv.read 0x11 (zeroBus.regs 0x11 % 256),
         BusEv.write 0x11 (Pll1ConfigurationRegister1.set_ssc1_5 (zeroBus.regs 0x11 % 256) (5 &&& 1 != 0) % 256)]) ∧
    (zeroBus.failWrite 0x10 = true →
      (set_spread_spectrum_clocking_selection_raw zeroBus 5 5).1 = false ∧
      (∀ o, (set_spread_spectrum_clocking_selection_raw zeroBus 5 5).2.1.regs o = zeroBus.regs o) ∧
      (set_spread_spectrum_clocking_selection_raw zeroBus 5 5).2.2 =
        [BusEv.read 0x10 (zeroBus.regs 0x10 % 256),
         BusEv.writeFailed 0x10 (Pll1ConfigurationRegister0.set_ssc1_5 (zeroBus.regs 0x10 % 256) (5 >>> 1) % 256)]) ∧
    (zeroBus.failWrite 0x10 = false → zeroBus.failWrite 0x11 = true →
      (set_spread_spectrum_clocking_selection_raw zeroBus 5 5).1 = false ∧
      (set_spread_spectrum_clocking_selection_raw zeroBus 5 5).2.1.regs 0x10 = Pll1ConfigurationRegister0.set_ssc1_5 (zeroBus.regs 0x10 % 256) (5 >>> 1) % 256 ∧
      (set_spread_spectrum_clocking_selection_raw zeroBus 5 5).2.1.regs 0x11 = zeroBus.regs 0x11) ∧
    (zeroBus.failWrite 0x11 = false → zeroBus.failWrite 0x12 = false →
      (set_spread_spectrum_clocking_selection_raw zeroBus 2 5).2.2 =
        [BusEv.read 0x11 (zeroBus.regs 0x11 % 256),
         BusEv.write 0x11 (Pll1ConfigurationRegister1.set_ssc1_2 (zeroBus.regs 0x11 % 256) (5 >>> 2 != 0) % 256),
         BusEv.read 0x12 (zeroBus.regs 0x12 % 256),
         BusEv.write 0x12 (Pll1ConfigurationRegister2.set_ssc1_2 (zeroBus.regs 0x12 % 256) (5 &&& 3) % 256)]) ∧
    (zeroBus.failWrite 0x11 = true →
      (set_spread_spectrum_clocking_selection_raw zeroBus 2 5).1 = false ∧
      (∀ o, (set_spread_spectrum_clocking_selection_raw zeroBus 2 5).2.1.regs o = zeroBus.regs o) ∧
      (set_spread_spectrum_clocking_selection_raw zeroBus 2 5).2.2 =
        [BusEv.read 0x11 (zeroBus.regs 0x11 % 256),
         BusEv.writeFailed 0x11 (Pll1ConfigurationRegister1.set_ssc1_2 (zeroBus.regs 0x11 % 256) (5 >>> 2 != 0) % 256)]) ∧
    (zeroBus.failWrite 0x11 = false → zeroBus.failWrite 0x12 = true →
      (set_spread_spectrum_clocking_selection_raw zeroBus 2 5).1 = false ∧
      (set_spread_spectrum_clocking_selection_raw zeroBus 2 5).2.1.regs 0x11 = Pll1ConfigurationRegister1.set_ssc1_2 (zeroBus.regs 0x11 % 256) (5 >>> 2 != 0) % 256 ∧
      (set_spread_spectrum_clocking_selection_raw zeroBus 2 5).2.1.regs 0x12 = zeroBus.regs 0x12)) :=
  ⟨⟨by decide, by decide, fun o => rfl⟩,
    multi_register_write_sequencing zeroBus 0x2AB 5 (by decide) (by decide)
      (fun o => rfl)⟩
